import Mathlib

/-
Shallow embedding of the NR5103 InfluxDB collector's radio-context
normalization core (src/collector/collector.py).

Modelling conventions:
- Raw modem values (entries of the `cellular` status dict) are
  `Value`: Python `None`, `bool`, `int`, `float`, `str`.
- Python floats are modelled exactly as scaled decimals `PyFloat`
  (mantissa and decimal scale, denoting `mant / 10^scale`): every
  numeric literal this device emits is a decimal string, which both
  CPython floats-compared-against-decimal-bounds and this encoding
  order the same way; `pfDenote` maps into `ℚ` and the comparison
  helpers are proved to agree with the rational order.
- Python `float(x)` / `int(x)` coercions are `safe_float` / `safe_int`
  over `Value`; the string case implements the plain decimal-literal
  grammar (optional sign, digits, at most one dot), which is the
  fragment of Python's numeric parsing the device data exercises.
- String splitting/stripping is implemented structurally on character
  lists, mirroring `str.split(",")` and `str.strip()`.
- The InfluxDB `Point` built by `Collector._radio_point` only ever
  receives the fixed tag keys rat/role/pci/cell_id/band/arfcn and the
  fixed field keys rsrp/rsrq/sinr/intf_bands/intf_rfcns, so an
  `Observation` record with one optional slot per conditional
  `.tag`/`.field` call captures it exactly: an `Option` that is `none`
  is a tag/field that was never attached.
-/

namespace NR5103Collector

/-- An exact Python float as the modem produces them: a scaled decimal
denoting `mant / 10 ^ scale`. -/
structure PyFloat where
  mant : ℤ
  scale : ℕ
deriving DecidableEq

/-- Rational denotation of a `PyFloat`. -/
def pfDenote (q : PyFloat) : ℚ :=
  (q.mant : ℚ) / (10 : ℚ) ^ q.scale

/-- Numeric strict order on scaled decimals (cross-multiplied). -/
def pfLt (a b : PyFloat) : Bool :=
  decide (a.mant * (10 : ℤ) ^ b.scale < b.mant * (10 : ℤ) ^ a.scale)

/-- A `PyFloat` with integer value. -/
def pfOfInt (n : ℤ) : PyFloat :=
  { mant := n, scale := 0 }

/-- A dynamically-typed raw value from the modem status document. -/
inductive Value where
  | vNone
  | vBool (b : Bool)
  | vInt (n : ℤ)
  | vFloat (q : PyFloat)
  | vStr (s : String)
deriving DecidableEq

/-- Python truthiness (`bool(v)` / `if v:`). -/
def truthy : Value → Bool
  | .vNone => false
  | .vBool b => b
  | .vInt n => n != 0
  | .vFloat q => q.mant != 0
  | .vStr s => s != ""

/-- Whitespace for `str.strip()`. -/
def isSpaceChar (c : Char) : Bool :=
  c == ' ' || c == '\t' || c == '\n' || c == '\r' || c == '\x0b' || c == '\x0c'

/-- `str.strip()` on a character list. -/
def trimChars (cs : List Char) : List Char :=
  ((cs.dropWhile isSpaceChar).reverse.dropWhile isSpaceChar).reverse

/-- `str.split(sep)` for a single-character separator: splitting never
drops a piece, and the empty string yields one empty piece. -/
def splitOnChar (sep : Char) : List Char → List (List Char)
  | [] => [[]]
  | c :: cs =>
    match splitOnChar sep cs with
    | [] => if c == sep then [[], [c]] else [[c]]
    | t :: ts => if c == sep then [] :: t :: ts else (c :: t) :: ts

/-- `s.startswith(pre)`. -/
def pyStartswith (s pre : String) : Bool :=
  List.isPrefixOf pre.toList s.toList

/-- `sep.join(pieces)` for the comma separator. -/
def joinComma : List String → String
  | [] => ""
  | [s] => s
  | s :: rest => s ++ "," ++ joinComma rest

/-- Value of a digit string, most significant first. -/
def digitsVal (cs : List Char) : ℕ :=
  cs.foldl (fun a c => 10 * a + (c.toNat - 48)) 0

/-- Split an optional leading sign off a character list. -/
def stripSign : List Char → ℤ × List Char
  | '-' :: rest => (-1, rest)
  | '+' :: rest => (1, rest)
  | cs => (1, cs)

/-- Python `int(s)` on a string: strip whitespace, optional sign, decimal
digits only (no dot).  `none` models the `ValueError`. -/
def parseIntStr (s : String) : Option ℤ :=
  let sd := stripSign (trimChars s.toList)
  if !sd.2.isEmpty && sd.2.all Char.isDigit then
    some (sd.1 * (digitsVal sd.2 : ℤ))
  else
    none

/-- Python `float(s)` on a string: strip whitespace, optional sign, decimal
digits with at most one dot and at least one digit.  `none` models the
`ValueError`. -/
def parseFloatStr (s : String) : Option PyFloat :=
  let sd := stripSign (trimChars s.toList)
  let ip := sd.2.takeWhile (fun c => c != '.')
  match sd.2.dropWhile (fun c => c != '.') with
  | [] =>
    if !ip.isEmpty && ip.all Char.isDigit then
      some { mant := sd.1 * (digitsVal ip : ℤ), scale := 0 }
    else
      none
  | _ :: fp =>
    if (!ip.isEmpty || !fp.isEmpty) && ip.all Char.isDigit && fp.all Char.isDigit then
      some { mant := sd.1 * ((digitsVal ip : ℤ) * (10 : ℤ) ^ fp.length + (digitsVal fp : ℤ))
             scale := fp.length }
    else
      none

/-- `float(value)`, returning `none` on `TypeError`/`ValueError`
(source: `safe_float`). -/
def safe_float : Value → Option PyFloat
  | .vNone => none
  | .vBool b => some (pfOfInt (if b then 1 else 0))
  | .vInt n => some (pfOfInt n)
  | .vFloat q => some q
  | .vStr s => parseFloatStr s

/-- Truncation toward zero of `mant / 10 ^ scale`, Python's
`int(float)`. -/
def pfTrunc (q : PyFloat) : ℤ :=
  let d := (10 : ℕ) ^ q.scale
  if 0 ≤ q.mant then ((q.mant.natAbs / d : ℕ) : ℤ) else -((q.mant.natAbs / d : ℕ) : ℤ)

/-- `int(value)`, returning `none` on `TypeError`/`ValueError`
(source: `safe_int`). -/
def safe_int : Value → Option ℤ
  | .vNone => none
  | .vBool b => some (if b then 1 else 0)
  | .vInt n => some n
  | .vFloat q => some (pfTrunc q)
  | .vStr s => parseIntStr s

/-- Source `valid_pci`: integer-coercible and strictly positive. -/
def valid_pci (value : Value) : Bool :=
  match safe_int value with
  | none => false
  | some v => decide (0 < v)

/-- Source `valid_rsrp`: present and strictly between -140 and -40. -/
def valid_rsrp (v : Option PyFloat) : Bool :=
  match v with
  | none => false
  | some q => pfLt (pfOfInt (-140)) q && pfLt q (pfOfInt (-40))

/-- Source `valid_rsrq`: present and strictly between -30 and 0. -/
def valid_rsrq (v : Option PyFloat) : Bool :=
  match v with
  | none => false
  | some q => pfLt (pfOfInt (-30)) q && pfLt q (pfOfInt 0)

/-- Source `valid_sinr`: present and strictly between -20 and 50. -/
def valid_sinr (v : Option PyFloat) : Bool :=
  match v with
  | none => false
  | some q => pfLt (pfOfInt (-20)) q && pfLt q (pfOfInt 50)

/-- Source `split_csv`: `None`/empty gives `[]`, else split on commas,
trim each token, drop empty tokens. -/
def split_csv (value : Option String) : List String :=
  match value with
  | none => []
  | some s =>
    if s = "" then []
    else (((splitOnChar ',' s.toList).map (fun t => (trimChars t).asString)).filter
      (fun x => x ≠ ""))

/-- One band/channel entry of the carrier-aggregation list. -/
structure CarrierPair where
  band : String
  rfcn : String
deriving DecidableEq

/-- Source `parse_band_rfcn_pairs`: pair band `i` with rfcn `i` when it
exists, else with the empty string. -/
def parse_band_rfcn_pairs (bands_csv rfcns_csv : Option String) : List CarrierPair :=
  let bands := split_csv bands_csv
  let rfcns := split_csv rfcns_csv
  bands.mapIdx (fun i b => { band := b, rfcn := rfcns.getD i "" })

/-- LTE supplemental downlink-only bands (source `LTE_SDL_ONLY`). -/
def LTE_SDL_ONLY : List String := ["B32", "B29"]

/-- Source `choose_lte_anchor`: first non-SDL LTE ("B"-prefixed) pair in
device order, falling back to the first LTE pair, `none` when no LTE pair
exists. -/
def choose_lte_anchor (pairs : List CarrierPair) : Option CarrierPair :=
  let lte := pairs.filter (fun p => pyStartswith p.band "B")
  if lte.isEmpty then none
  else
    let non_sdl := lte.filter (fun p => !(LTE_SDL_ONLY.contains p.band))
    match non_sdl.head? with
    | some p => some p
    | none => lte.head?

/-- Python `str(v)` as the collector applies it to tag values.  The
device reports tagged identity values as strings or integers, where this
agrees with Python; a float renders in mantissa/scale form rather than
CPython's repr. -/
def pyStr : Value → String
  | .vNone => "None"
  | .vBool b => if b then "True" else "False"
  | .vInt n => toString n
  | .vFloat q => toString q.mant ++ "e-" ++ toString q.scale
  | .vStr s => s

/-- The `cellular` section of one raw status snapshot.  Every key the
extractor reads is optional; `vNone` is Python's `dict.get` miss. -/
structure Cellular where
  INTF_Current_Band : Option String
  INTF_RFCN : Option String
  INTF_PhyCell_ID : Value
  INTF_Cell_ID : Value
  INTF_RSRP : Value
  INTF_RSRQ : Value
  INTF_SINR : Value
  NSA_Enable : Value
  NSA_PhyCellID : Value
  NSA_Cell_ID : Value
  NSA_Band : Value
  NSA_RFCN : Value
  NSA_RSRP : Value
  NSA_RSRQ : Value
  NSA_SINR : Value
deriving DecidableEq

/-- A snapshot with every field absent. -/
def emptyCellular : Cellular :=
  { INTF_Current_Band := none
    INTF_RFCN := none
    INTF_PhyCell_ID := .vNone
    INTF_Cell_ID := .vNone
    INTF_RSRP := .vNone
    INTF_RSRQ := .vNone
    INTF_SINR := .vNone
    NSA_Enable := .vNone
    NSA_PhyCellID := .vNone
    NSA_Cell_ID := .vNone
    NSA_Band := .vNone
    NSA_RFCN := .vNone
    NSA_RSRP := .vNone
    NSA_RSRQ := .vNone
    NSA_SINR := .vNone }

/-- One raw status document; `status.get("cellular", \x7b\x7d)`. -/
structure RawStatus where
  cellular : Option Cellular
deriving DecidableEq

/-- The cellular section the extractor works on, defaulting to empty. -/
def cellOf (status : RawStatus) : Cellular :=
  status.cellular.getD emptyCellular

/-- One emitted InfluxDB point.  Optional slots are tags/fields the
source attaches conditionally; `none` means the tag/field was never
written. -/
structure Observation where
  measurement : String
  rat : String
  role : String
  pci_tag : String
  cell_id_tag : String
  band_tag : Option String
  arfcn_tag : Option String
  rsrp_field : Option PyFloat
  rsrq_field : Option PyFloat
  sinr_field : Option PyFloat
  intf_bands_field : Option String
  intf_rfcns_field : Option String
  time : ℕ
deriving DecidableEq

/-- Python `sinr == 0` on an optional float (`None == 0` is `False`). -/
def optEqZero : Option PyFloat → Bool
  | none => false
  | some q => q.mant == 0

/-- Source `Collector._clean_sinr`: exactly-zero SINR means "not
available" and becomes absent. -/
def clean_sinr (sinr : Option PyFloat) : Option PyFloat :=
  if optEqZero sinr then none else sinr

/-- Source `Collector._radio_point`: fixed measurement name, identity
tags (`"unknown"` only for an absent pci/cell_id), band/arfcn tags only
when truthy, signal fields only when present. -/
def radio_point (rat role : String) (pci cell_id band arfcn : Value)
    (rsrp rsrq sinr : Option PyFloat) (time : ℕ) : Observation :=
  { measurement := "cellular_radio_raw"
    rat := rat
    role := role
    pci_tag := if pci = .vNone then "unknown" else pyStr pci
    cell_id_tag := if cell_id = .vNone then "unknown" else pyStr cell_id
    band_tag := if truthy band then some (pyStr band) else none
    arfcn_tag := if truthy arfcn then some (pyStr arfcn) else none
    rsrp_field := rsrp
    rsrq_field := rsrq
    sinr_field := sinr
    intf_bands_field := none
    intf_rfcns_field := none
    time := time }

/-- The anchor observation the extractor builds once the LTE pci gate has
passed (body of the `---- LTE / anchor ----` block of
`Collector._extract_radio_points`). -/
def anchorObs (status : RawStatus) (now : ℕ) : Observation :=
  let cell := cellOf status
  let pairs := parse_band_rfcn_pairs cell.INTF_Current_Band cell.INTF_RFCN
  let lte_anchor := choose_lte_anchor pairs
  let raw_bands : Option String :=
    if pairs.isEmpty then none
    else some (joinComma (pairs.map (fun p => p.band)))
  let raw_rfcns : Option String :=
    if pairs.isEmpty then none
    else some (joinComma ((pairs.filter (fun p => p.rfcn ≠ "")).map (fun p => p.rfcn)))
  let band_arg : Value :=
    match lte_anchor with
    | some a => .vStr a.band
    | none => .vNone
  let arfcn_arg : Value :=
    match lte_anchor with
    | some a => if a.rfcn ≠ "" then .vStr a.rfcn else .vNone
    | none => .vNone
  let p := radio_point "LTE" "anchor" cell.INTF_PhyCell_ID cell.INTF_Cell_ID
    band_arg arfcn_arg
    (safe_float cell.INTF_RSRP) (safe_float cell.INTF_RSRQ)
    (clean_sinr (safe_float cell.INTF_SINR)) now
  { p with intf_bands_field := raw_bands, intf_rfcns_field := raw_rfcns }

/-- The inner condition of the `---- NR (NSA secondary) ----` block:
valid pci, truthy band, truthy arfcn, plausible rsrp. -/
def nrGate (cell : Cellular) : Bool :=
  valid_pci cell.NSA_PhyCellID && truthy cell.NSA_Band && truthy cell.NSA_RFCN
    && valid_rsrp (safe_float cell.NSA_RSRP)

/-- The secondary observation the extractor builds once the NSA gate has
passed. -/
def nrObs (status : RawStatus) (now : ℕ) : Observation :=
  let cell := cellOf status
  radio_point "NR" "secondary" cell.NSA_PhyCellID
    (if truthy cell.NSA_Cell_ID then cell.NSA_Cell_ID else cell.INTF_Cell_ID)
    cell.NSA_Band cell.NSA_RFCN (safe_float cell.NSA_RSRP) (safe_float cell.NSA_RSRQ)
    (clean_sinr (safe_float cell.NSA_SINR)) now

/-- Source `Collector._extract_radio_points`: anchor observation gated on
LTE pci validity, secondary observation gated on the NSA_Enable truthiness
check and the four-way inner gate, anchor first. -/
def extract_radio_points (status : RawStatus) (now : ℕ) : List Observation :=
  let cell := cellOf status
  let anchor_points : List Observation :=
    if valid_pci cell.INTF_PhyCell_ID then [anchorObs status now] else []
  let nr_points : List Observation :=
    if truthy cell.NSA_Enable then
      if nrGate cell then [nrObs status now] else []
    else []
  anchor_points ++ nr_points

/-- Mutable collector-object state retained across poll cycles (the
authentication handle `self.session_key`). -/
structure CollectorState where
  session_key : Option String
deriving DecidableEq

/-- `Collector._extract_radio_points` as a call on the collector object:
the method reads only its two arguments and never touches
`self.session_key`, so the instance state passes through unchanged. -/
def collector_extract (st : CollectorState) (status : RawStatus) (now : ℕ) :
    CollectorState × List Observation :=
  (st, extract_radio_points status now)

/-- A snapshot with a valid LTE pci and out-of-range LTE signal values:
RSRP at the -140.0 sentinel floor, RSRQ at 5.0 (above 0), SINR at 60.0
(above 50). -/
def c4status : RawStatus :=
  { cellular := some { emptyCellular with
      INTF_PhyCell_ID := .vStr "123"
      INTF_RSRP := .vStr "-140.0"
      INTF_RSRQ := .vStr "5.0"
      INTF_SINR := .vStr "60.0" } }

/-- A snapshot whose secondary context passes every gate condition except
possibly the NSA_Enable flag, which is the argument. -/
def c10status (v : Value) : RawStatus :=
  { cellular := some { emptyCellular with
      NSA_Enable := v
      NSA_PhyCellID := .vStr "101"
      NSA_Band := .vStr "n28"
      NSA_RFCN := .vStr "9410"
      NSA_RSRP := .vStr "-95.0" } }

/-- The Bool order on scaled decimals agrees with the rational order of
their denotations. -/
theorem pfLt_iff_denote (a b : PyFloat) : pfLt a b = true ↔ pfDenote a < pfDenote b := by
  unfold pfLt pfDenote
  rw [decide_eq_true_iff, div_lt_div_iff₀ (by positivity) (by positivity)]
  constructor
  · intro h
    exact_mod_cast h
  · intro h
    exact_mod_cast h

/-- A scaled decimal denotes zero exactly when its mantissa is zero. -/
theorem pfDenote_eq_zero_iff (q : PyFloat) : pfDenote q = 0 ↔ q.mant = 0 := by
  unfold pfDenote
  rw [div_eq_zero_iff]
  constructor
  · intro h
    rcases h with h | h
    · exact_mod_cast h
    · exact absurd h (by positivity)
  · intro h
    exact Or.inl (by exact_mod_cast h)

@[simp]
theorem anchorObs_role (status : RawStatus) (now : ℕ) :
    (anchorObs status now).role = "anchor" := rfl

@[simp]
theorem anchorObs_measurement (status : RawStatus) (now : ℕ) :
    (anchorObs status now).measurement = "cellular_radio_raw" := rfl

@[simp]
theorem anchorObs_time (status : RawStatus) (now : ℕ) :
    (anchorObs status now).time = now := rfl

theorem anchorObs_rsrp (status : RawStatus) (now : ℕ) :
    (anchorObs status now).rsrp_field = safe_float (cellOf status).INTF_RSRP := rfl

theorem anchorObs_rsrq (status : RawStatus) (now : ℕ) :
    (anchorObs status now).rsrq_field = safe_float (cellOf status).INTF_RSRQ := rfl

theorem anchorObs_sinr (status : RawStatus) (now : ℕ) :
    (anchorObs status now).sinr_field = clean_sinr (safe_float (cellOf status).INTF_SINR) := rfl

@[simp]
theorem nrObs_role (status : RawStatus) (now : ℕ) :
    (nrObs status now).role = "secondary" := rfl

@[simp]
theorem nrObs_measurement (status : RawStatus) (now : ℕ) :
    (nrObs status now).measurement = "cellular_radio_raw" := rfl

@[simp]
theorem nrObs_time (status : RawStatus) (now : ℕ) :
    (nrObs status now).time = now := rfl

theorem nrObs_rsrp (status : RawStatus) (now : ℕ) :
    (nrObs status now).rsrp_field = safe_float (cellOf status).NSA_RSRP := rfl

theorem nrObs_rsrq (status : RawStatus) (now : ℕ) :
    (nrObs status now).rsrq_field = safe_float (cellOf status).NSA_RSRQ := rfl

theorem nrObs_sinr (status : RawStatus) (now : ℕ) :
    (nrObs status now).sinr_field = clean_sinr (safe_float (cellOf status).NSA_SINR) := rfl

/-- Membership in the extractor's output, by branch. -/
theorem mem_extract_radio_points {status : RawStatus} {now : ℕ} {o : Observation} :
    o ∈ extract_radio_points status now ↔
      (valid_pci (cellOf status).INTF_PhyCell_ID = true ∧ o = anchorObs status now) ∨
      (truthy (cellOf status).NSA_Enable = true ∧ nrGate (cellOf status) = true ∧
        o = nrObs status now) := by
  unfold extract_radio_points
  cases h1 : valid_pci (cellOf status).INTF_PhyCell_ID <;>
    cases h2 : truthy (cellOf status).NSA_Enable <;>
      cases h3 : nrGate (cellOf status) <;>
        simp [h1, h2, h3]

/-- C1: if the LTE physical cell identity fails the validity test (as 0,
-5, "abc" and an absent value all do), no anchor observation is emitted;
if the secondary physical cell identity fails it, no secondary
observation is emitted, whatever the other fields hold. -/
theorem identity_gate (status : RawStatus) (now : ℕ) :
    (valid_pci (cellOf status).INTF_PhyCell_ID = false →
      ∀ o ∈ extract_radio_points status now, o.role ≠ "anchor") ∧
    (valid_pci (cellOf status).NSA_PhyCellID = false →
      ∀ o ∈ extract_radio_points status now, o.role ≠ "secondary") ∧
    valid_pci (.vInt 0) = false ∧ valid_pci (.vInt (-5)) = false ∧
    valid_pci (.vStr "abc") = false ∧ valid_pci .vNone = false := by
  refine ⟨?_, ?_, by decide, by decide, by decide, by decide⟩
  · intro h o ho
    rcases mem_extract_radio_points.mp ho with ⟨h1, rfl⟩ | ⟨_, _, rfl⟩
    · rw [h] at h1
      exact absurd h1 (by decide)
    · simp
  · intro h o ho
    rcases mem_extract_radio_points.mp ho with ⟨_, rfl⟩ | ⟨_, h2, rfl⟩
    · simp
    · rw [nrGate, h] at h2
      exact absurd h2 (by simp)

/-- C1 witness: on a snapshot whose LTE pci is "abc" and whose NSA pci is
absent, the theorem applies and both roles are excluded. -/
theorem identity_gate_witness :
    ∀ o ∈ extract_radio_points
      { cellular := some { emptyCellular with INTF_PhyCell_ID := .vStr "abc" } } 0,
      o.role ≠ "anchor" :=
  (identity_gate { cellular := some { emptyCellular with INTF_PhyCell_ID := .vStr "abc" } } 0).1
    (by decide)

/-- C2: a secondary observation appears in the output exactly when all
five gate conditions hold, and then exactly once; a single failed
condition suppresses it entirely. -/
theorem secondary_all_or_nothing (status : RawStatus) (now : ℕ) :
    ((extract_radio_points status now).filter (fun o => o.role == "secondary")).length =
      (if truthy (cellOf status).NSA_Enable && valid_pci (cellOf status).NSA_PhyCellID &&
          truthy (cellOf status).NSA_Band && truthy (cellOf status).NSA_RFCN &&
          valid_rsrp (safe_float (cellOf status).NSA_RSRP) then 1 else 0) := by
  have hgate : (truthy (cellOf status).NSA_Enable && valid_pci (cellOf status).NSA_PhyCellID &&
      truthy (cellOf status).NSA_Band && truthy (cellOf status).NSA_RFCN &&
      valid_rsrp (safe_float (cellOf status).NSA_RSRP)) =
      (truthy (cellOf status).NSA_Enable && nrGate (cellOf status)) := by
    simp [nrGate, Bool.and_assoc]
  rw [hgate]
  unfold extract_radio_points
  cases h1 : valid_pci (cellOf status).INTF_PhyCell_ID <;>
    cases h2 : truthy (cellOf status).NSA_Enable <;>
      cases h3 : nrGate (cellOf status) <;>
        simp [h1, h2, h3, List.filter]

/-- C7: the extractor returns an ordered list of at most two
observations, anchor before secondary when both appear, each carrying the
fixed measurement name and the caller-supplied timestamp. -/
theorem observation_list_shape (status : RawStatus) (now : ℕ) :
    ((extract_radio_points status now).map (fun o => o.role) = [] ∨
     (extract_radio_points status now).map (fun o => o.role) = ["anchor"] ∨
     (extract_radio_points status now).map (fun o => o.role) = ["secondary"] ∨
     (extract_radio_points status now).map (fun o => o.role) = ["anchor", "secondary"]) ∧
    ∀ o ∈ extract_radio_points status now,
      o.measurement = "cellular_radio_raw" ∧ o.time = now := by
  constructor
  · unfold extract_radio_points
    cases h1 : valid_pci (cellOf status).INTF_PhyCell_ID <;>
      cases h2 : truthy (cellOf status).NSA_Enable <;>
        cases h3 : nrGate (cellOf status) <;>
          simp [h1, h2, h3]
  · intro o ho
    rcases mem_extract_radio_points.mp ho with ⟨_, rfl⟩ | ⟨_, _, rfl⟩ <;> simp

/-- C7 witness: the theorem applied to a snapshot producing one anchor
observation. -/
theorem observation_list_shape_witness :
    ∀ o ∈ extract_radio_points
      { cellular := some { emptyCellular with INTF_PhyCell_ID := .vStr "123" } } 5,
      o.measurement = "cellular_radio_raw" ∧ o.time = 5 :=
  (observation_list_shape
    { cellular := some { emptyCellular with INTF_PhyCell_ID := .vStr "123" } } 5).2

/-- C8: extraction and every validator are total: any snapshot, however
many fields are absent, yields a plain list of at most two observations;
absent inputs make validators answer absent/invalid, and the fully-absent
snapshot yields the empty list. -/
theorem extraction_total_on_absence (status : RawStatus) (now : ℕ) :
    (∃ obs : List Observation, extract_radio_points status now = obs ∧ obs.length ≤ 2) ∧
    safe_float .vNone = none ∧ safe_int .vNone = none ∧ valid_pci .vNone = false ∧
    valid_rsrp none = false ∧ valid_rsrq none = false ∧ valid_sinr none = false ∧
    clean_sinr none = none ∧ split_csv none = [] ∧
    extract_radio_points { cellular := none } now = [] ∧
    extract_radio_points { cellular := some emptyCellular } now = [] := by
  refine ⟨⟨extract_radio_points status now, rfl, ?_⟩,
    rfl, rfl, rfl, rfl, rfl, rfl, rfl, rfl, rfl, rfl⟩
  unfold extract_radio_points
  cases h1 : valid_pci (cellOf status).INTF_PhyCell_ID <;>
    cases h2 : truthy (cellOf status).NSA_Enable <;>
      cases h3 : nrGate (cellOf status) <;>
        simp [h1, h2, h3]

/-- C9: extraction is a deterministic, state-free function: its output
does not depend on the collector's retained state, the state is left
unchanged, and a repeated call on the identical snapshot and timestamp
returns the identical observation list. -/
theorem extraction_deterministic (st st' : CollectorState) (status : RawStatus) (now : ℕ) :
    (collector_extract st status now).2 = (collector_extract st' status now).2 ∧
    (collector_extract st status now).1 = st ∧
    (collector_extract ((collector_extract st status now).1) status now).2 =
      (collector_extract st status now).2 :=
  ⟨rfl, rfl, rfl⟩

/-- Let-free unfolding of the anchor selector. -/
theorem choose_lte_anchor_eq (pairs : List CarrierPair) :
    choose_lte_anchor pairs =
      (if (pairs.filter (fun p => pyStartswith p.band "B")).isEmpty then none
       else
        match ((pairs.filter (fun p => pyStartswith p.band "B")).filter
            (fun p => !(LTE_SDL_ONLY.contains p.band))).head? with
        | some p => some p
        | none => (pairs.filter (fun p => pyStartswith p.band "B")).head?) := rfl

/-- C3: the anchor selector returns none exactly when no pair is
"B"-prefixed; otherwise it returns the first non-SDL LTE pair in device
order, falling back to the first LTE pair when every LTE band is SDL-only;
illustrated on the three listed carrier lists. -/
theorem anchor_selector_correct (pairs : List CarrierPair) :
    (choose_lte_anchor pairs = none ↔
      pairs.filter (fun p => pyStartswith p.band "B") = []) ∧
    (choose_lte_anchor pairs =
      (((pairs.filter (fun p => pyStartswith p.band "B")).filter
          (fun p => !(LTE_SDL_ONLY.contains p.band))).head?).orElse
        (fun _ => (pairs.filter (fun p => pyStartswith p.band "B")).head?)) ∧
    (pairs.filter (fun p => pyStartswith p.band "B") ≠ [] →
      (∀ p ∈ pairs.filter (fun p => pyStartswith p.band "B"), p.band ∈ LTE_SDL_ONLY) →
      choose_lte_anchor pairs = (pairs.filter (fun p => pyStartswith p.band "B")).head?) ∧
    choose_lte_anchor (parse_band_rfcn_pairs (some "B32,B20,n1") (some "100,200,300")) =
      some { band := "B20", rfcn := "200" } ∧
    choose_lte_anchor (parse_band_rfcn_pairs (some "B32") none) =
      some { band := "B32", rfcn := "" } ∧
    choose_lte_anchor (parse_band_rfcn_pairs (some "n1") (some "300")) = none := by
  have hform : choose_lte_anchor pairs =
      (((pairs.filter (fun p => pyStartswith p.band "B")).filter
          (fun p => !(LTE_SDL_ONLY.contains p.band))).head?).orElse
        (fun _ => (pairs.filter (fun p => pyStartswith p.band "B")).head?) := by
    cases hE : (pairs.filter (fun p => pyStartswith p.band "B")).isEmpty
    · rw [choose_lte_anchor_eq, hE]
      cases hH : ((pairs.filter (fun p => pyStartswith p.band "B")).filter
          (fun p => !(LTE_SDL_ONLY.contains p.band))).head?
      · rfl
      · rfl
    · have hnil : pairs.filter (fun p => pyStartswith p.band "B") = [] :=
        List.isEmpty_iff.mp hE
      rw [choose_lte_anchor_eq, hE, hnil]
      rfl
  refine ⟨?_, hform, ?_, by decide, by decide, by decide⟩
  · rw [hform]
    cases hL : pairs.filter (fun p => pyStartswith p.band "B") with
    | nil =>
      exact ⟨fun _ => rfl, fun _ => rfl⟩
    | cons x xs =>
      cases hH : ((x :: xs).filter (fun p => !(LTE_SDL_ONLY.contains p.band))).head? <;>
        simp [Option.orElse]
  · intro _ hall
    rw [hform]
    have hsdl : (pairs.filter (fun p => pyStartswith p.band "B")).filter
        (fun p => !(LTE_SDL_ONLY.contains p.band)) = [] := by
      rw [List.filter_eq_nil_iff]
      intro a ha
      simp [hall a ha]
    rw [hsdl]
    rfl

/-- C3 witness: the fallback clause applied to the all-SDL carrier list
["B32"]. -/
theorem anchor_selector_correct_witness :
    choose_lte_anchor (parse_band_rfcn_pairs (some "B32") none) =
      ((parse_band_rfcn_pairs (some "B32") none).filter
        (fun p => pyStartswith p.band "B")).head? :=
  (anchor_selector_correct (parse_band_rfcn_pairs (some "B32") none)).2.2.1
    (by decide) (by decide)

/-- C5: the parser returns exactly one pair per band token, aligning the
i-th band with the i-th channel token when it exists and with the empty
string otherwise. -/
theorem carrier_list_alignment (bands_csv rfcns_csv : Option String) :
    (parse_band_rfcn_pairs bands_csv rfcns_csv).length = (split_csv bands_csv).length ∧
    ∀ i : ℕ, (parse_band_rfcn_pairs bands_csv rfcns_csv)[i]? =
      ((split_csv bands_csv)[i]?).map
        (fun b => { band := b, rfcn := ((split_csv rfcns_csv)[i]?).getD "" }) := by
  refine ⟨by simp [parse_band_rfcn_pairs], ?_⟩
  intro i
  simp [parse_band_rfcn_pairs, List.getElem?_mapIdx, List.getD_eq_getElem?_getD]

/-- The SINR cleaner never lets an exactly-zero value through. -/
theorem clean_sinr_mant_ne {x : Option PyFloat} {q : PyFloat}
    (h : clean_sinr x = some q) : q.mant ≠ 0 := by
  unfold clean_sinr at h
  cases hz : optEqZero x
  · rw [hz] at h
    simp only [Bool.false_eq_true, if_false] at h
    rw [h] at hz
    unfold optEqZero at hz
    simpa using hz
  · rw [hz] at h
    simp at h

/-- C6: no emitted observation, anchor or secondary, carries a SINR field
denoting zero: a reported SINR of exactly 0 is cleaned to absent, even
though 0 passes the general (-20, 50) plausibility bound. -/
theorem sinr_zero_cleaned (status : RawStatus) (now : ℕ) :
    (∀ o ∈ extract_radio_points status now, ∀ q, o.sinr_field = some q → pfDenote q ≠ 0) ∧
    clean_sinr (safe_float (.vStr "0")) = none ∧
    clean_sinr (safe_float (.vStr "0.0")) = none ∧
    valid_sinr (safe_float (.vStr "0")) = true := by
  refine ⟨?_, by decide, by decide, by decide⟩
  intro o ho q hq
  rw [Ne, pfDenote_eq_zero_iff]
  rcases mem_extract_radio_points.mp ho with ⟨_, rfl⟩ | ⟨_, _, rfl⟩
  · rw [anchorObs_sinr] at hq
    exact clean_sinr_mant_ne hq
  · rw [nrObs_sinr] at hq
    exact clean_sinr_mant_ne hq

/-- C6 witness: on a snapshot reporting SINR 12.5, the emitted anchor
observation's SINR denotes a nonzero value. -/
theorem sinr_zero_cleaned_witness :
    pfDenote { mant := 125, scale := 1 } ≠ 0 :=
  (sinr_zero_cleaned
      { cellular := some { emptyCellular with
          INTF_PhyCell_ID := .vStr "123", INTF_SINR := .vStr "12.5" } } 0).1
    (anchorObs
      { cellular := some { emptyCellular with
          INTF_PhyCell_ID := .vStr "123", INTF_SINR := .vStr "12.5" } } 0)
    (by decide) { mant := 125, scale := 1 } (by decide)

/-- C4 counterexample: on a snapshot whose LTE signal readings are all
outside the plausibility bounds of the validators (RSRP -140.0, RSRQ 5.0,
SINR 60.0), the anchor observation still carries all three values as
fields; they are not omitted, although each validator rejects them. -/
theorem anchor_invalid_fields_emitted :
    (extract_radio_points c4status 0).map
        (fun o => (o.role, o.rsrp_field, o.rsrq_field, o.sinr_field)) =
      [("anchor", some { mant := -1400, scale := 1 }, some { mant := 50, scale := 1 },
        some { mant := 600, scale := 1 })] ∧
    valid_rsrp (some { mant := -1400, scale := 1 }) = false ∧
    valid_rsrq (some { mant := 50, scale := 1 }) = false ∧
    valid_sinr (some { mant := 600, scale := 1 }) = false ∧
    pfDenote { mant := -1400, scale := 1 } = -140 ∧
    pfDenote { mant := 50, scale := 1 } = 5 ∧
    pfDenote { mant := 600, scale := 1 } = 60 := by
  refine ⟨by decide, by decide, by decide, by decide, ?_, ?_, ?_⟩ <;>
    · unfold pfDenote
      norm_num

/-- C4 amended: emitted signal fields are the coerced raw values — the
anchor's RSRP/RSRQ/SINR and the secondary's RSRQ/SINR are only coerced
(SINR additionally zero-cleaned), with absent/non-coercible values
omitted, never replaced by a sentinel; only the secondary RSRP is
range-validated, at the (-140, -40) exclusive bounds. -/
theorem signal_field_policy (status : RawStatus) (now : ℕ) :
    (∀ o ∈ extract_radio_points status now, o.role = "anchor" →
      o.rsrp_field = safe_float (cellOf status).INTF_RSRP ∧
      o.rsrq_field = safe_float (cellOf status).INTF_RSRQ ∧
      o.sinr_field = clean_sinr (safe_float (cellOf status).INTF_SINR)) ∧
    (∀ o ∈ extract_radio_points status now, o.role = "secondary" →
      valid_rsrp o.rsrp_field = true ∧
      o.rsrp_field = safe_float (cellOf status).NSA_RSRP ∧
      o.rsrq_field = safe_float (cellOf status).NSA_RSRQ ∧
      o.sinr_field = clean_sinr (safe_float (cellOf status).NSA_SINR)) ∧
    valid_rsrp (safe_float (.vStr "-140.0")) = false ∧
    valid_rsrp (safe_float (.vStr "-139.9")) = true ∧
    valid_rsrp (safe_float (.vStr "-40.0")) = false ∧
    valid_rsrp (safe_float (.vStr "-40.1")) = true ∧
    valid_rsrp none = false := by
  refine ⟨?_, ?_, by decide, by decide, by decide, by decide, by decide⟩
  · intro o ho hrole
    rcases mem_extract_radio_points.mp ho with ⟨_, rfl⟩ | ⟨_, _, rfl⟩
    · exact ⟨anchorObs_rsrp status now, anchorObs_rsrq status now, anchorObs_sinr status now⟩
    · rw [nrObs_role] at hrole
      exact absurd hrole (by decide)
  · intro o ho hrole
    rcases mem_extract_radio_points.mp ho with ⟨_, rfl⟩ | ⟨_, hg, rfl⟩
    · rw [anchorObs_role] at hrole
      exact absurd hrole (by decide)
    · rw [nrGate] at hg
      simp only [Bool.and_eq_true] at hg
      exact ⟨by rw [nrObs_rsrp]; exact hg.2, nrObs_rsrp status now,
        nrObs_rsrq status now, nrObs_sinr status now⟩

/-- C4 witness: the anchor clause of the amended policy applied to the
out-of-range snapshot: the emitted RSRP field is the coerced raw value. -/
theorem signal_field_policy_witness :
    (anchorObs c4status 0).rsrp_field = safe_float (cellOf c4status).INTF_RSRP :=
  ((signal_field_policy c4status 0).1 (anchorObs c4status 0) (by decide) (by decide)).1

/-- C10: the NSA_Enable gate is truthiness, not a boolean-typed test: on
an otherwise fully-valid secondary context, the secondary observation is
emitted exactly when the raw flag is truthy, and the strings "0" and
"false" are truthy while an absent value, False, 0 and "" are not. -/
theorem nsa_enable_truthiness (v : Value) (now : ℕ) :
    ((extract_radio_points (c10status v) now).map (fun o => o.role) =
      if truthy v then ["secondary"] else []) ∧
    truthy (.vStr "0") = true ∧ truthy (.vStr "false") = true ∧
    (∀ s : String, s ≠ "" → truthy (.vStr s) = true) ∧
    (∀ n : ℤ, n ≠ 0 → truthy (.vInt n) = true) ∧
    (∀ q : PyFloat, q.mant ≠ 0 → truthy (.vFloat q) = true) ∧
    truthy .vNone = false ∧ truthy (.vBool false) = false ∧
    truthy (.vStr "") = false ∧ truthy (.vInt 0) = false := by
  refine ⟨?_, by decide, by decide, ?_, ?_, ?_, by decide, by decide, by decide, by decide⟩
  · have hA : valid_pci (cellOf (c10status v)).INTF_PhyCell_ID = false := rfl
    have hG : nrGate (cellOf (c10status v)) = true := rfl
    have hE : (cellOf (c10status v)).NSA_Enable = v := rfl
    simp only [extract_radio_points]
    rw [hA, hE, hG]
    cases h : truthy v <;> simp [h]
  · intro s hs
    simp [truthy, hs]
  · intro n hn
    simp [truthy, hn]
  · intro q hq
    simp [truthy, hq]

/-- C10 witness: the flag string "0" is truthy, so the secondary
observation is emitted; the nonzero integer 3 is truthy. -/
theorem nsa_enable_truthiness_witness :
    ((extract_radio_points (c10status (.vStr "0")) 0).map (fun o => o.role) =
      if truthy (.vStr "0") then ["secondary"] else []) ∧
    truthy (.vStr "x") = true ∧ truthy (.vInt 3) = true :=
  ⟨(nsa_enable_truthiness (.vStr "0") 0).1,
    (nsa_enable_truthiness (.vStr "0") 0).2.2.2.1 "x" (by decide),
    (nsa_enable_truthiness (.vStr "0") 0).2.2.2.2.1 3 (by decide)⟩

end NR5103Collector
